import Mathlib

/-!
Verification development for the `firstflamingo/python_utilities` REST layer
(`rest_interface.py`, `rest_resources.py`, `markup.py`, helpers in
`ffe_time.py` / `ffe_utils.py`).

Shallow embedding conventions:
* datetimes are modelled as `Nat` microseconds since an arbitrary UTC epoch
  (the store's `last_modified` is a naive UTC datetime with microseconds);
  RFC-1123 header values carry second precision only;
* `md5_hash` (ffe_utils.py) is modelled as a perfect (collision-free) hash:
  the hash value is represented by the tuple of the hashed components, one
  structured type per call site.  The `strftime('%Y%m%d%H') + str(minute//12)`
  date string of `RestHandler.opaque_from_nonce` is represented by the pair
  `(absolute hour, minute // 12)` that it encodes injectively;
* JSON serialization of the catalog array (`json.dumps`) is modelled as the
  injective structured value (the list of `(id, lm-seconds)` pairs);
* Python `if obj:` tests on objects fetched from the dictionaries of
  `markup.XMLImporter` are modelled as `Option.isSome`: the stored objects are
  ndb model instances, which are always truthy;
* fallible Python code (`raise`) is modelled with `Option`.
-/

namespace FFE

/-! ### Python `str.split` (used for request paths and the Accept header) -/

/-- Auxiliary loop for `py_split`: walks the character list, accumulating the
current (reversed) chunk. -/
def py_split_aux (sep : Char) : List Char → List Char → List String
  | [], acc => [String.mk acc.reverse]
  | c :: cs, acc =>
    if c = sep then String.mk acc.reverse :: py_split_aux sep cs []
    else py_split_aux sep cs (c :: acc)

/-- Python `s.split(sep)` for a single-character separator: empty chunks are
kept, and the empty string splits to `[""]`. -/
def py_split (s : String) (sep : Char) : List String :=
  py_split_aux sep s.data []

/-! ### DataType (rest_resources.py, class DataType) -/

/-- The two serialization types of `rest_resources.DataType`
(`xml, json = range(2)`). -/
inductive DataType
  | xml
  | json
deriving DecidableEq

/-- `DataType.s = ['application/xml', 'application/json']`. -/
def data_type_strings : List String := ["application/xml", "application/json"]

/-- `DataType.type_for_string`: linear scan of `DataType.s` for an exact string
match, `None` when no entry matches. -/
def type_for_string (string : String) : Option DataType :=
  if string = "application/xml" then some DataType.xml
  else if string = "application/json" then some DataType.json
  else none

/-! ### Digest authentication (rest_interface.py, RestHandler) -/

/-- The time-bucket key encoded by `now.strftime('%Y%m%d%H') + str(now.minute // 12)`
in `RestHandler.opaque_from_nonce`: the absolute hour together with the
12-minute sub-bucket of the hour.  `now` is in seconds. -/
def date_string (now : Nat) : Nat × Nat :=
  (now / 3600, now % 3600 / 720)

/-- `RestHandler.opaque_from_nonce(nonce, now)`:
`md5_hash([date_string, nonce, 'FDhgfliubnw'])`, with md5 modelled as a perfect
hash (the tuple of its components). -/
def opaq_from_nonce (nonce : String) (now : Nat) : (Nat × Nat) × String × String :=
  (date_string now, nonce, "FDhgfliubnw")

/-- The opaque-freshness stage of `RestHandler.authenticate` (lines 344-351):
recompute the opaque for `now`; on mismatch retry at `now - 5 minutes`;
fail (`Nonce has expired`) when neither matches. -/
def nonce_is_fresh (opaq : (Nat × Nat) × String × String) (nonce : String) (now : Nat) : Bool :=
  if opaq = opaq_from_nonce nonce now then true
  else if opaq = opaq_from_nonce nonce (now - 300) then true
  else false

/-- A stored user (`rest_resources.User`): ndb key id, the `ha1` digest secret,
and the `has_admin_privileges` flag. -/
structure UserRec where
  key : Nat
  ha1 : String
  has_admin_privileges : Bool
deriving DecidableEq

/-- Digit-string to number, accumulator style (models Python `int(s)` for a
digits-only string). -/
def nat_from_digits : List Char → Nat → Nat
  | [], acc => acc
  | c :: cs, acc => nat_from_digits cs (acc * 10 + (c.toNat - 48))

/-- `User.valid_identifier`: the identifier must fully match the regex
`[0-9]{1,19}$` (1 to 19 digits) and is then converted with `int(...)`;
a failing match raises `NoValidIdentifierError`, modelled as `none`. -/
def valid_user_identifier (s : String) : Option Nat :=
  if 1 ≤ s.length ∧ s.length ≤ 19 ∧ s.data.all (fun c => c.isDigit) then
    some (nat_from_digits s.data 0)
  else none

/-- `md5_hash([method, uri])` (the HA2 digest), perfect-hash model. -/
def md5_ha2 (method uri : String) : String × String := (method, uri)

/-- `md5_hash([ha1, nonce, nc, cnonce, qop, ha2])` (the response digest),
perfect-hash model. -/
def md5_response (ha1 nonce nc cnonce qop : String) (ha2 : String × String) :
    String × String × String × String × String × (String × String) :=
  (ha1, nonce, nc, cnonce, qop, ha2)

/-- The parameters extracted from the `Authorization` header by
`RestHandler.authenticate`; a header from which any of them is missing is
rejected, which is modelled as `none` at the `Option AuthorizationHeader`
level.  `opaq` and `response` are hash values, in the perfect-hash model. -/
structure AuthorizationHeader where
  username : String
  nonce : String
  cnonce : String
  nc : String
  realm : String
  qop : String
  uri : String
  opaq : (Nat × Nat) × String × String
  response : String × String × String × String × String × (String × String)
deriving DecidableEq

/-- `RestHandler.authenticate` (rest_interface.py lines 319-374): checks, in
source order, header presence, realm, opaque freshness (at `now`, with a
5-minute-earlier fallback), username validity, user existence, uri = request
path, and the digest response.  Returns the authenticated user (the source
returns `True` after setting `self.user`).  `users` is the user store
(`user_class.get`, keyed by the numeric ndb id); `now` is the wall clock in
seconds.  The function is pure: the source reads and writes no nonce store. -/
def authenticate (users : Nat → Option UserRec) (realm : String)
    (method path : String) (header : Option AuthorizationHeader) (now : Nat) :
    Option UserRec :=
  match header with
  | none => none
  | some p =>
    if p.realm ≠ realm then none
    else if nonce_is_fresh p.opaq p.nonce now = false then none
    else
      match valid_user_identifier p.username with
      | none => none
      | some uid =>
        match users uid with
        | none => none
        | some user =>
          if p.uri ≠ path then none
          else if p.response ≠ md5_response user.ha1 p.nonce p.nc p.cnonce p.qop
              (md5_ha2 method p.uri) then none
          else some user

/-- The `WWW-Authenticate` challenge parameters built by
`RestHandler.require_authentication`: realm, `qop='auth'`, a nonce, and the
opaque for "now".  A pure function: issuing a challenge persists nothing. -/
structure Challenge where
  realm : String
  qop : String
  nonce : String
  opaq : (Nat × Nat) × String × String

/-- `RestHandler.require_authentication` (rest_interface.py lines 376-383),
with the random nonce passed in as a parameter. -/
def require_authentication (realm nonce : String) (now : Nat) : Challenge :=
  { realm := realm, qop := "auth", nonce := nonce, opaq := opaq_from_nonce nonce now }

/-! ### Authorization (rest_interface.py, RestHandler.resource_is_authorized) -/

/-- `RestHandler.resource_is_authorized` (lines 307-317): no authenticated user
means not authorized; an admin is always authorized; otherwise the resource
must carry an `owner_key` attribute equal to the user's key.  `owner_key = none`
models a resource without the attribute. -/
def resource_is_authorized (user : Option UserRec) (owner_key : Option Nat) : Bool :=
  match user with
  | none => false
  | some u =>
    if u.has_admin_privileges then true
    else
      match owner_key with
      | some k => decide (k = u.key)
      | none => false

/-- `User.owner_key` (rest_resources.py lines 318-320): the property returns
`self.key`, so every `User` records itself as its owner. -/
def user_owner_key (u : UserRec) : Nat := u.key

/-! ### Timestamps (ffe_time.py, rest_resources.py Resource) -/

/-- `Resource.last_modified_utc`: `mark_utc(self.last_modified.replace(microsecond=0))`.
`lm` is the stored datetime in microseconds; the microseconds are truncated. -/
def last_modified_utc (lm : Nat) : Nat := lm / 1000000 * 1000000

/-- `ffe_time.utc_from_rfc1123`: an RFC-1123 string parses to a UTC datetime at
second precision (`secs` seconds, zero microseconds). -/
def utc_from_rfc1123 (secs : Nat) : Nat := secs * 1000000

/-! ### The PUT dispatcher (rest_interface.py, RestHandler.put) -/

/-- A stored REST resource as seen by `RestHandler.put`: its optional
`owner_key` and its `last_modified` datetime (microseconds). -/
structure RsrcState where
  owner_key : Option Nat
  last_modified : Nat
deriving DecidableEq

/-- The outcomes of `RestHandler.put`, tagged with the http status the handler
sets. -/
inductive PutOutcome
  | unauthorized_challenge
  | unsupported_media
  | unauthorized
  | conflict
  | updated
  | precondition_failed
  | created
  | bad_request
  | not_found
deriving DecidableEq

/-- `RestHandler.put` (rest_interface.py lines 237-284).  `auth_user` is the
result of `authenticate()` (`none` means the 401 challenge of
`require_authentication`); `input_type` the result of `input_data_type`;
`resource` the fetched target instance; `new_ok` whether
`resource_class.new(resource_id)` succeeds without `NoValidIdentifierError`;
`unmodified_since` the parsed `If-Unmodified-Since` header in seconds.
An existing resource is updated iff
`resource.last_modified_utc <= utc_from_rfc1123(header)` (line 261);
otherwise the handler answers 412 and does not apply the update. -/
def put_handler (auth_user : Option UserRec) (input_type : Option DataType)
    (resource : Option RsrcState) (is_publication : Bool) (new_ok : Bool)
    (unmodified_since : Option Nat) : PutOutcome :=
  match auth_user with
  | none => PutOutcome.unauthorized_challenge
  | some user =>
    match input_type with
    | none => PutOutcome.unsupported_media
    | some _ =>
      match resource with
      | some r =>
        if resource_is_authorized (some user) r.owner_key then
          match unmodified_since with
          | none => PutOutcome.conflict
          | some t =>
            if last_modified_utc r.last_modified ≤ utc_from_rfc1123 t then
              PutOutcome.updated
            else PutOutcome.precondition_failed
        else PutOutcome.unauthorized
      | none =>
        if is_publication then
          if user.has_admin_privileges then
            if new_ok then PutOutcome.created else PutOutcome.bad_request
          else PutOutcome.unauthorized
        else PutOutcome.not_found

/-! ### Request-path parsing (rest_interface.py, ResourceHandler.parse_request_path) -/

/-- The flags set by `ResourceHandler.parse_request_path`, together with the
validated identifier exposed by the `resource_id` property. -/
structure ParseResult where
  valid_class_url : Bool
  valid_resource_id : Bool
  resource_id : Option String
deriving DecidableEq

/-- `ResourceHandler.parse_request_path` (rest_interface.py lines 81-98):
split the path on '/'; fewer than 3 components, a class segment different from
`url_name`, or more than 4 components leave both flags false; exactly 3
components mark a valid class url; exactly 4 attempt identifier validation via
the class grammar (`valid_identifier`, modelled by the parameter `validf`,
`none` standing for `NoValidIdentifierError`). -/
def parse_request_path (url_name : String) (validf : String → Option String)
    (path : String) : ParseResult :=
  match py_split path '/' with
  | _ :: _ :: c :: rest =>
    if c ≠ url_name then ⟨false, false, none⟩
    else
      match rest with
      | [] => ⟨true, false, none⟩
      | [identifier] =>
        match validf identifier with
        | some vid => ⟨false, true, some vid⟩
        | none => ⟨false, false, none⟩
      | _ :: _ :: _ => ⟨false, false, none⟩
  | _ => ⟨false, false, none⟩

/-! ### Content negotiation (rest_interface.py, RestHandler.output_data_type) -/

/-- `RestHandler.output_data_type` (rest_interface.py lines 401-413): split the
`Accept` header on ',', parse the media type before any ';' of each entry,
keep the recognized types in client order, and return the first one among the
class's writable data types; `none` when the header is absent or no acceptable
type is writable. -/
def output_data_type (writable : List DataType) (accept : Option String) :
    Option DataType :=
  match accept with
  | none => none
  | some accept_string =>
    let acceptable_types :=
      (py_split accept_string ',').filterMap
        (fun a => type_for_string ((py_split a ';').headD ""))
    acceptable_types.find? (fun dt => writable.contains dt)

/-- The negotiation step of `RestHandler.get` (rest_interface.py lines 230-233):
`output_data_type` returning `None` makes the request fail with 406
(Not Acceptable); otherwise the chosen type is used for the output. -/
def get_negotiation (writable : List DataType) (accept : Option String) :
    Except Nat DataType :=
  match output_data_type writable accept with
  | none => Except.error 406
  | some dt => Except.ok dt

/-! ### Keyed maps (Python dictionaries) -/

/-- Python `d.get(k)` on an association list (first match). -/
def mget {V : Type} (k : String) : List (String × V) → Option V
  | [] => none
  | p :: ps => if p.1 = k then some p.2 else mget k ps

/-- Python `del d[k]`: drop the pairs stored under `k`. -/
def mdel {V : Type} (k : String) : List (String × V) → List (String × V)
  | [] => []
  | p :: ps => if p.1 = k then mdel k ps else p :: mdel k ps

/-- Python `d[k] = v`. -/
def mset {V : Type} (k : String) (v : V) (m : List (String × V)) :
    List (String × V) :=
  (k, v) :: mdel k m

/-- Python `k in d`. -/
def has_key {V : Type} (k : String) (m : List (String × V)) : Bool :=
  (mget k m).isSome

/-! ### Catalog (rest_resources.py, class Catalog) -/

/-- A live instance of a cataloged (publication) class: its ndb string id and
its `last_modified` datetime in microseconds. -/
structure Entity where
  id : String
  lastModified : Nat
deriving DecidableEq

/-- The descending last-modified order used by
`query().order(-Resource.last_modified)`. -/
def lm_desc (a b : Entity) : Prop := b.lastModified ≤ a.lastModified

instance : DecidableRel lm_desc := fun a b => Nat.decLe b.lastModified a.lastModified

instance : IsTotal Entity lm_desc := ⟨fun a b => Nat.le_total b.lastModified a.lastModified⟩

instance : IsTrans Entity lm_desc := ⟨fun _ _ _ hab hbc => Nat.le_trans hbc hab⟩

/-- One catalog entry `{'id': entry.id_, 'lm': entry.last_modified_utc.strftime('%Y-%m-%dT%H:%M:%S')}`:
the id together with the second-precision timestamp (the ISO-like string
injectively encodes the seconds count). -/
def catalog_entry (e : Entity) : String × Nat := (e.id, e.lastModified / 1000000)

/-- The array built by `Catalog.serialization_of_type` on a cache miss:
all live instances ordered by descending `last_modified`, capped by
`fetch(1000)`, mapped to catalog entries.  `json.dumps` is modelled as the
injective structured value. -/
def catalog_array (live : List Entity) : List (String × Nat) :=
  ((List.insertionSort lm_desc live).take 1000).map catalog_entry

/-- A `Catalog` entity (rest_resources.py lines 217-261): its `class_module`
text property and the memoized `catalog` text property (`none` after
invalidation or on a fresh entity). -/
structure CatalogEnt where
  class_module : String
  catalog : Option (List (String × Nat))
deriving DecidableEq

/-- `Catalog.serialization_of_type` (rest_resources.py lines 253-261): for json,
on a cache miss build the array from the live instances, store it in
`self.catalog` (followed by `self.put()`), and return it; on a hit return the
stored text unchanged.  For any other data type the method returns `None`
(falls through). -/
def serialization_of_type (self : CatalogEnt) (live : List Entity)
    (dt : DataType) : Option (List (String × Nat)) × CatalogEnt :=
  match dt with
  | DataType.json =>
    match self.catalog with
    | none =>
      let array := catalog_array live
      (some array, { self with catalog := some array })
    | some c => (some c, self)
  | DataType.xml => (none, self)

/-- `Catalog.invalidate` (rest_resources.py lines 238-242): clear the stored
serialization (and `put`) unless it is already `None`. -/
def invalidate (self : CatalogEnt) : CatalogEnt :=
  match self.catalog with
  | none => self
  | some _ => { self with catalog := none }

/-! ### PublicResource mutations and the catalog store
(rest_resources.py, class PublicResource, lines 264-287) -/

/-- The world visible to one publication class: the class's live instances in
the datastore, and the store of `Catalog` entities keyed by class name
(`Catalog` ids are the cataloged class's `__name__`). -/
structure PubWorld where
  instances : List Entity
  catalogs : List (String × CatalogEnt)
deriving DecidableEq

/-- The empty datastore. -/
def init_world : PubWorld := { instances := [], catalogs := [] }

/-- `Catalog.get(cataloged_class)` (rest_resources.py lines 231-236): fetch the
`Catalog` entity by class name; when absent, `Catalog.new` creates and `put`s a
fresh one (whose `catalog` property is unset). -/
def catalog_get (cls : String) (w : PubWorld) : CatalogEnt × PubWorld :=
  match mget cls w.catalogs with
  | some ent => (ent, w)
  | none =>
    let ent : CatalogEnt := { class_module := "rest_resources", catalog := none }
    (ent, { w with catalogs := mset cls ent w.catalogs })

/-- `PublicResource.invalidate_catalog` (rest_resources.py lines 284-287):
`Catalog.get(cls)` followed by `catalog.invalidate()`. -/
def invalidate_catalog (cls : String) (w : PubWorld) : PubWorld :=
  let gw := catalog_get cls w
  { gw.2 with catalogs := mset cls (invalidate gw.1) gw.2.catalogs }

/-- `PublicResource.new` (lines 270-274): invalidates the class catalog and
creates the in-memory instance; the instance reaches the datastore only through
a later `put()`. -/
def public_new (cls : String) (w : PubWorld) : PubWorld :=
  invalidate_catalog cls w

/-- `PublicResource.put` (lines 276-278): store the instance (ndb's `auto_now`
stamps `last_modified` with the current time `now`), then invalidate the class
catalog. -/
def public_put (cls : String) (id : String) (now : Nat) (w : PubWorld) : PubWorld :=
  let w1 := { w with instances :=
    { id := id, lastModified := now } :: w.instances.filter (fun e => decide (e.id ≠ id)) }
  invalidate_catalog cls w1

/-- `PublicResource.delete` (lines 280-282): delete the instance, then
invalidate the class catalog. -/
def public_delete (cls : String) (id : String) (w : PubWorld) : PubWorld :=
  let w1 := { w with instances := w.instances.filter (fun e => decide (e.id ≠ id)) }
  invalidate_catalog cls w1

/-- A class-level catalog read (`RestHandler.get` on a class url fetches
`Catalog.get(resource_class)` and serializes it as json). -/
def catalog_read (cls : String) (w : PubWorld) :
    Option (List (String × Nat)) × PubWorld :=
  let gw := catalog_get cls w
  let res := serialization_of_type gw.1 gw.2.instances DataType.json
  (res.1, { gw.2 with catalogs := mset cls res.2 gw.2.catalogs })

/-- The operations that touch a publication class or its catalog. -/
inductive PubOp
  | newOp
  | putOp (id : String) (now : Nat)
  | delOp (id : String)
  | readOp
deriving DecidableEq

/-- Apply one operation to the world. -/
def apply_op (cls : String) (w : PubWorld) : PubOp → PubWorld
  | PubOp.newOp => public_new cls w
  | PubOp.putOp id now => public_put cls id now w
  | PubOp.delOp id => public_delete cls id w
  | PubOp.readOp => (catalog_read cls w).2

/-- Run a sequence of operations from the empty datastore. -/
def run_ops (cls : String) (ops : List PubOp) : PubWorld :=
  ops.foldl (apply_op cls) init_world

/-- The catalog text stored for class `cls`: `none` when no `Catalog` entity
exists, `some none` when the entity exists with a cleared cache. -/
def stored_catalog (cls : String) (w : PubWorld) :
    Option (Option (List (String × Nat))) :=
  (mget cls w.catalogs).map (fun ent => ent.catalog)

/-- The catalog-cache invariant: whatever serialization is stored for `cls` is
exactly the serialization of the current live set (a cleared or absent cache is
always fine). -/
def catalog_consistent (cls : String) (w : PubWorld) : Prop :=
  match mget cls w.catalogs with
  | none => True
  | some ent =>
    match ent.catalog with
    | none => True
    | some s => s = catalog_array w.instances

/-! ### The reconciliation importer (markup.py, class XMLImporter) -/

/-- The three populations maintained by `XMLImporter`:
`old_objects` (the pre-import snapshot, shrinking as keys are reconciled),
`updated_objects` (objects whose update reported changes), and
`new_objects` (every object present after reconciliation). -/
structure ImportState (V : Type) where
  old_objects : List (String × V)
  updated_objects : List (String × V)
  new_objects : List (String × V)
deriving DecidableEq

/-- `XMLImporter.startDocument` (markup.py lines 129-132): snapshot the
existing population into `old_objects`, start with empty `updated_objects`
and `new_objects`. -/
def start_document {V : Type} (existing : List (String × V)) : ImportState V :=
  { old_objects := existing, updated_objects := [], new_objects := [] }

/-- `XMLImporter.pop_from_old_objects` (markup.py lines 158-164): take the
object from `old_objects` (removing the key) when present; otherwise fall back
to the object already stored in `new_objects`; `none` when neither has the
key. -/
def pop_from_old_objects {V : Type} (st : ImportState V) (key : String) :
    Option V × ImportState V :=
  match mget key st.old_objects with
  | some obj => (some obj, { st with old_objects := mdel key st.old_objects })
  | none => (mget key st.new_objects, st)

/-- One closing tag of an active element (`XMLImporter.endElement`, markup.py
lines 141-153): a `none` key means the record is ignored entirely; otherwise
the object is popped from `old_objects` (or reused from `new_objects`, or
freshly created), updated with the record data `d` (the update reporting the
`changes` flag), stored in `new_objects`, and also in `updated_objects` when
changed.  `create` models `create_new_object`, `upd` models `update_object`
together with the `self.changes` protocol. -/
def end_element_step {V D : Type} (create : String → V) (upd : V → D → V × Bool)
    (st : ImportState V) (key : Option String) (d : D) : ImportState V :=
  match key with
  | none => st
  | some k =>
    let popped := pop_from_old_objects st k
    let st1 := popped.2
    let obj :=
      match popped.1 with
      | some o => o
      | none => create k
    let updres := upd obj d
    let st2 := { st1 with new_objects := mset k updres.1 st1.new_objects }
    if updres.2 then
      { st2 with updated_objects := mset k updres.1 st2.updated_objects }
    else st2

/-- A full reconciliation pass: `startDocument`, then one `endElement` per
active record of the feed (a record is its computed key, `none` for
malformed/ignorable entries, with its element data). -/
def run_import {V D : Type} (create : String → V) (upd : V → D → V × Bool)
    (existing : List (String × V)) (records : List (Option String × D)) :
    ImportState V :=
  records.foldl (fun st r => end_element_step create upd st r.1 r.2)
    (start_document existing)

/-- The keys the feed inserts: every non-`none` computed key. -/
def feed_keys {D : Type} (records : List (Option String × D)) : List String :=
  records.filterMap (fun r => r.1)

/-! ### Concrete inputs used by the witness theorems -/

/-- A one-user store: user id 7 with a fixed ha1 secret, no admin rights. -/
def demo_users : Nat → Option UserRec := fun uid =>
  if uid = 7 then some { key := 7, ha1 := "secret-ha1", has_admin_privileges := false }
  else none

/-- A complete, correct Digest header for `demo_users` user 7, whose opaque was
computed at time 1000. -/
def demo_header : AuthorizationHeader :=
  { username := "7", nonce := "314159", cnonce := "0a4f113b", nc := "00000001",
    realm := "tests@firstflamingo.com", qop := "auth", uri := "/api/things/12",
    opaq := opaq_from_nonce "314159" 1000,
    response := md5_response "secret-ha1" "314159" "00000001" "0a4f113b" "auth"
      (md5_ha2 "GET" "/api/things/12") }

/-- A non-admin principal. -/
def demo_principal : UserRec := { key := 5, ha1 := "pp", has_admin_privileges := false }

/-- A `User` resource with the same ndb key as `demo_principal`. -/
def demo_user_resource : UserRec := { key := 5, ha1 := "rr", has_admin_privileges := false }

/-- A non-admin user owning `demo_rsrc`. -/
def demo_u : UserRec := { key := 1, ha1 := "h1", has_admin_privileges := false }

/-- A resource owned by `demo_u`, last modified at 1234567.654321 seconds. -/
def demo_rsrc : RsrcState := { owner_key := some 1, last_modified := 1234567654321 }

/-- An identifier grammar accepting exactly "12". -/
def demo_validf : String → Option String := fun s => if s = "12" then some s else none

/-- Two live instances of a cataloged class. -/
def demo_live : List Entity :=
  [{ id := "a", lastModified := 5500000 }, { id := "b", lastModified := 9000000 }]

/-- A different live set, used to show a cached catalog is returned unchanged. -/
def demo_alt : List Entity := [{ id := "c", lastModified := 1000000 }]

/-- 1001 live instances (one more than the `fetch(1000)` cap), already in
descending last-modified order. -/
def big_instances : List Entity :=
  (List.range 1001).map (fun i => { id := Nat.repr i, lastModified := (1001 - i) * 1000000 })

/-- A blank-object factory for the importer witnesses. -/
def demo_create : String → Nat := fun _ => 0

/-- An update step for the importer witnesses: add the record value, report a
change exactly when the value is nonzero. -/
def demo_upd : Nat → Nat → Nat × Bool := fun v d => (v + d, decide (d ≠ 0))

/-! ## Helper lemmas -/

theorem opaq_eq_iff (n : String) (a b : Nat) :
    opaq_from_nonce n a = opaq_from_nonce n b ↔ a / 720 = b / 720 := by
  simp only [opaq_from_nonce, date_string, Prod.mk.injEq, and_true, true_and]
  omega

theorem fresh_iff (n : String) (T V : Nat) :
    nonce_is_fresh (opaq_from_nonce n T) n V = true ↔
      (T / 720 = V / 720 ∨ T / 720 = (V - 300) / 720) := by
  unfold nonce_is_fresh
  by_cases h1 : opaq_from_nonce n T = opaq_from_nonce n V
  · rw [if_pos h1]
    simp [(opaq_eq_iff n T V).mp h1]
  · rw [if_neg h1]
    by_cases h2 : opaq_from_nonce n T = opaq_from_nonce n (V - 300)
    · rw [if_pos h2]
      simp [(opaq_eq_iff n T (V - 300)).mp h2]
    · rw [if_neg h2]
      rw [opaq_eq_iff] at h1 h2
      simp [h1, h2]

/-! ## Claim theorems -/

/-- Claim C2 (counterexample): the claim asserts that an opaque computed at any
time T validates at T+11m59s; for T = 360 (six minutes past the start of its
12-minute bucket) the opaque computed at T is rejected at T+719 seconds — both
the current bucket and the five-minutes-earlier fallback differ from T's
bucket. -/
theorem C2_counterexample :
    nonce_is_fresh (opaq_from_nonce "7" 360) "7" (360 + 719) = false := by decide

/-- Claim C2 (amended): an opaque computed at time T is accepted when
validation runs at T; it is accepted at T+11m59s if and only if T lies at most
300 seconds after the start of its 12-minute bucket; and it is always rejected
at T+25m.  Validation recomputes the opaque for the current bucket and, on
mismatch, once more for the time five minutes earlier
(`RestHandler.authenticate`, lines 344-351). -/
theorem C2_theorem (nonce : String) (T : Nat) :
    nonce_is_fresh (opaq_from_nonce nonce T) nonce T = true
    ∧ (nonce_is_fresh (opaq_from_nonce nonce T) nonce (T + 719) = true ↔ T % 720 ≤ 300)
    ∧ nonce_is_fresh (opaq_from_nonce nonce T) nonce (T + 1500) = false := by
  refine ⟨?_, ?_, ?_⟩
  · rw [fresh_iff]
    exact Or.inl rfl
  · rw [fresh_iff]
    omega
  · rw [Bool.eq_false_iff, Ne, fresh_iff]
    omega

/-- Claim C2 (witness): the amended theorem evaluated at nonce "7", T = 1000. -/
theorem C2_witness :
    nonce_is_fresh (opaq_from_nonce "7" 1000) "7" 1000 = true
    ∧ (nonce_is_fresh (opaq_from_nonce "7" 1000) "7" (1000 + 719) = true ↔ 1000 % 720 ≤ 300)
    ∧ nonce_is_fresh (opaq_from_nonce "7" 1000) "7" (1000 + 1500) = false :=
  C2_theorem "7" 1000

/-- Claim C3 (counterexample): the claim asserts that no identical header is
accepted at three validation calls inside the validity window; the fully valid
header `demo_header` (opaque computed at time 1000) is accepted at the three
distinct times 1000, 1060 and 1120, all inside the same 12-minute bucket. -/
theorem C3_counterexample :
    (authenticate demo_users "tests@firstflamingo.com" "GET" "/api/things/12"
        (some demo_header) 1000).isSome = true
    ∧ (authenticate demo_users "tests@firstflamingo.com" "GET" "/api/things/12"
        (some demo_header) 1060).isSome = true
    ∧ (authenticate demo_users "tests@firstflamingo.com" "GET" "/api/things/12"
        (some demo_header) 1120).isSome = true := by decide

/-- Claim C3 (amended): authentication keeps no server-side nonce state —
`authenticate` and `require_authentication` are modelled as pure functions
because the source reads and writes no nonce store — but consequently a Digest
response is not limited to two acceptances: whenever the header's opaque was
computed at time T, validation at any time t in the same 12-minute bucket
returns the same result as at T, so an accepted header is accepted at every
such instant (in particular at three or more distinct times). -/
theorem C3_theorem (users : Nat → Option UserRec) (realm method path : String)
    (hdr : AuthorizationHeader) (T t : Nat)
    (hop : hdr.opaq = opaq_from_nonce hdr.nonce T)
    (ht : t / 720 = T / 720) :
    authenticate users realm method path (some hdr) t =
      authenticate users realm method path (some hdr) T := by
  have h1 : nonce_is_fresh hdr.opaq hdr.nonce t = true := by
    rw [hop, fresh_iff]
    exact Or.inl ht.symm
  have h2 : nonce_is_fresh hdr.opaq hdr.nonce T = true := by
    rw [hop, fresh_iff]
    exact Or.inl rfl
  simp [authenticate, h1, h2]

/-- Claim C3 (witness): the amended theorem evaluated at the demo user store
and header, T = 1000, t = 1100. -/
theorem C3_witness :
    authenticate demo_users "tests@firstflamingo.com" "GET" "/api/things/12"
        (some demo_header) 1100 =
      authenticate demo_users "tests@firstflamingo.com" "GET" "/api/things/12"
        (some demo_header) 1000 :=
  C3_theorem demo_users "tests@firstflamingo.com" "GET" "/api/things/12"
    demo_header 1000 1100 rfl (by decide)

/-- Claim C10: `User.owner_key` always equals the user's own key, so under the
shared authorization rule (`RestHandler.resource_is_authorized`) an
authenticated non-admin principal is authorized over a `User` resource exactly
when that resource is their own, and any other non-admin principal is
denied. -/
theorem C10_theorem (p r : UserRec) (hp : p.has_admin_privileges = false) :
    user_owner_key r = r.key
    ∧ (resource_is_authorized (some p) (some (user_owner_key r)) = true ↔ r.key = p.key) := by
  refine ⟨rfl, ?_⟩
  simp [resource_is_authorized, user_owner_key, hp]

/-- Claim C10 (witness): the theorem evaluated at `demo_principal` and the
`User` resource `demo_user_resource` with the same key. -/
theorem C10_witness :
    user_owner_key demo_user_resource = demo_user_resource.key
    ∧ (resource_is_authorized (some demo_principal)
        (some (user_owner_key demo_user_resource)) = true
       ↔ demo_user_resource.key = demo_principal.key) :=
  C10_theorem demo_principal demo_user_resource (by decide)

theorem put_existing (u : UserRec) (dt : DataType) (r : RsrcState)
    (pub ok : Bool) (t : Nat)
    (hauth : resource_is_authorized (some u) r.owner_key = true) :
    put_handler (some u) (some dt) (some r) pub ok (some t) =
      (if last_modified_utc r.last_modified ≤ utc_from_rfc1123 t then PutOutcome.updated
       else PutOutcome.precondition_failed) := by
  simp [put_handler, hauth]

/-- Claim C1: for an existing, authorized resource, a PUT whose
`If-Unmodified-Since` equals the resource's current last-modified timestamp
(at the second granularity it is reported with) applies the update; when the
stored timestamp is strictly newer than the header value the request fails
with 412 and the update is not applied; the comparison truncates the stored
microseconds (`Resource.last_modified_utc`). -/
theorem C1_theorem (u : UserRec) (dt : DataType) (r : RsrcState)
    (pub ok : Bool) (hsec : Nat)
    (hauth : resource_is_authorized (some u) r.owner_key = true) :
    put_handler (some u) (some dt) (some r) pub ok
        (some (r.last_modified / 1000000)) = PutOutcome.updated
    ∧ (utc_from_rfc1123 hsec < last_modified_utc r.last_modified →
        put_handler (some u) (some dt) (some r) pub ok (some hsec) =
          PutOutcome.precondition_failed)
    ∧ (put_handler (some u) (some dt) (some r) pub ok (some hsec) =
          PutOutcome.updated ↔ r.last_modified / 1000000 ≤ hsec) := by
  refine ⟨?_, ?_, ?_⟩
  · rw [put_existing u dt r pub ok _ hauth, if_pos]
    exact Nat.le_refl _
  · intro h
    rw [put_existing u dt r pub ok _ hauth, if_neg]
    exact Nat.not_le.mpr h
  · rw [put_existing u dt r pub ok _ hauth]
    constructor
    · intro h
      by_cases hc : last_modified_utc r.last_modified ≤ utc_from_rfc1123 hsec
      · unfold last_modified_utc utc_from_rfc1123 at hc
        omega
      · rw [if_neg hc] at h
        exact absurd h (by decide)
    · intro h
      rw [if_pos]
      unfold last_modified_utc utc_from_rfc1123
      omega

/-- Claim C1 (witness): the theorem evaluated at `demo_u` (the owner of
`demo_rsrc`), json input, and a stale header value of 999 seconds. -/
theorem C1_witness :
    put_handler (some demo_u) (some DataType.json) (some demo_rsrc) false false
        (some (demo_rsrc.last_modified / 1000000)) = PutOutcome.updated
    ∧ (utc_from_rfc1123 999 < last_modified_utc demo_rsrc.last_modified →
        put_handler (some demo_u) (some DataType.json) (some demo_rsrc) false false
          (some 999) = PutOutcome.precondition_failed)
    ∧ (put_handler (some demo_u) (some DataType.json) (some demo_rsrc) false false
          (some 999) = PutOutcome.updated ↔ demo_rsrc.last_modified / 1000000 ≤ 999) :=
  C1_theorem demo_u DataType.json demo_rsrc false false 999 (by decide)

/-- Claim C6: `parse_request_path` yields exactly one of three outcomes —
fewer than 3 '/'-separated components, a class segment different from
`url_name`, or more than 4 components leave both validity flags false
(invalid); exactly 3 components with a matching class segment give a valid
class-level request with no identifier; exactly 4 components with a matching
class segment give a valid instance request exactly when the identifier passes
the class grammar, and otherwise an invalid result (the
`NoValidIdentifierError` is caught, never surfaced to the caller — the
embedding is a total function). -/
theorem C6_theorem (url_name : String) (validf : String → Option String)
    (path : String) :
    (((py_split path '/').length < 3 ∨ (py_split path '/').getD 2 "" ≠ url_name ∨
        4 < (py_split path '/').length) →
      (parse_request_path url_name validf path).valid_class_url = false ∧
        (parse_request_path url_name validf path).valid_resource_id = false)
    ∧ (((py_split path '/').length = 3 ∧ (py_split path '/').getD 2 "" = url_name) →
      parse_request_path url_name validf path = ⟨true, false, none⟩)
    ∧ (((py_split path '/').length = 4 ∧ (py_split path '/').getD 2 "" = url_name) →
      (parse_request_path url_name validf path).valid_class_url = false ∧
        ((parse_request_path url_name validf path).valid_resource_id = true ↔
          ((validf ((py_split path '/').getD 3 "")).isSome = true)) ∧
        (parse_request_path url_name validf path).resource_id =
          validf ((py_split path '/').getD 3 "")) := by
  simp only [parse_request_path]
  generalize py_split path '/' = comps
  rcases comps with _ | ⟨a, _ | ⟨b, _ | ⟨c, rest⟩⟩⟩
  · simp
  · simp
  · simp
  · by_cases hc : c = url_name
    · rcases rest with _ | ⟨d, _ | ⟨e, rest2⟩⟩
      · simp [hc]
      · cases hv : validf d with
        | none => simp [hc, hv, List.getD]
        | some vid => simp [hc, hv, List.getD]
      · simp [hc]
    · simp [hc, List.getD]

/-- Claim C6 (witness): the theorem evaluated at class url "st", the grammar
`demo_validf`, and the instance path "/api/st/12". -/
theorem C6_witness :
    (((py_split "/api/st/12" '/').length < 3 ∨
        (py_split "/api/st/12" '/').getD 2 "" ≠ "st" ∨
        4 < (py_split "/api/st/12" '/').length) →
      (parse_request_path "st" demo_validf "/api/st/12").valid_class_url = false ∧
        (parse_request_path "st" demo_validf "/api/st/12").valid_resource_id = false)
    ∧ (((py_split "/api/st/12" '/').length = 3 ∧
        (py_split "/api/st/12" '/').getD 2 "" = "st") →
      parse_request_path "st" demo_validf "/api/st/12" = ⟨true, false, none⟩)
    ∧ (((py_split "/api/st/12" '/').length = 4 ∧
        (py_split "/api/st/12" '/').getD 2 "" = "st") →
      (parse_request_path "st" demo_validf "/api/st/12").valid_class_url = false ∧
        ((parse_request_path "st" demo_validf "/api/st/12").valid_resource_id = true ↔
          ((demo_validf ((py_split "/api/st/12" '/').getD 3 "")).isSome = true)) ∧
        (parse_request_path "st" demo_validf "/api/st/12").resource_id =
          demo_validf ((py_split "/api/st/12" '/').getD 3 "")) :=
  C6_theorem "st" demo_validf "/api/st/12"

theorem find_filterMap {α β : Type} (f : α → Option β) (p : β → Bool)
    (l : List α) :
    (l.filterMap f).find? p =
      l.findSome? (fun a => (f a).bind (fun b => if p b then some b else none)) := by
  induction l with
  | nil => rfl
  | cons a l ih =>
    cases hf : f a with
    | none => simp [List.filterMap_cons, hf, List.findSome?, ih]
    | some b =>
      by_cases hp : p b
      · simp [List.filterMap_cons, hf, List.findSome?, List.find?, hp]
      · simp [List.filterMap_cons, hf, List.findSome?, List.find?, hp, ih]

/-- Claim C7: for a GET, the chosen output serialization is the first entry of
the client's Accept list (in client order) whose media type belongs to the
class's writable data types, and the negotiation step of `RestHandler.get`
fails with 406 exactly when no entry of the Accept list belongs to the
writable set (an absent Accept header also gives 406). -/
theorem C7_theorem (writable : List DataType) (accept_string : String) :
    output_data_type writable (some accept_string) =
      (py_split accept_string ',').findSome? (fun a =>
        (type_for_string ((py_split a ';').headD "")).bind
          (fun dt => if writable.contains dt then some dt else none))
    ∧ (get_negotiation writable (some accept_string) = Except.error 406 ↔
        ∀ a ∈ py_split accept_string ',', ∀ dt : DataType,
          type_for_string ((py_split a ';').headD "") = some dt →
            writable.contains dt = false)
    ∧ get_negotiation writable none = Except.error 406 := by
  have hmain : output_data_type writable (some accept_string) =
      (py_split accept_string ',').findSome? (fun a =>
        (type_for_string ((py_split a ';').headD "")).bind
          (fun dt => if writable.contains dt then some dt else none)) := by
    simp only [output_data_type]
    rw [find_filterMap]
  refine ⟨hmain, ?_, rfl⟩
  have herr : get_negotiation writable (some accept_string) = Except.error 406 ↔
      output_data_type writable (some accept_string) = none := by
    unfold get_negotiation
    cases h : output_data_type writable (some accept_string) <;> simp
  rw [herr]
  unfold output_data_type
  rw [List.find?_eq_none]
  constructor
  · intro h a ha dt hdt
    have := h dt (List.mem_filterMap.mpr ⟨a, ha, hdt⟩)
    simpa using this
  · intro h dt hdt
    rcases List.mem_filterMap.mp hdt with ⟨a, ha, hfa⟩
    simpa using h a ha dt hfa

/-- Claim C7 (witness): the theorem evaluated at a json-only writable set and
the Accept header "application/xml,application/json". -/
theorem C7_witness :
    output_data_type [DataType.json] (some "application/xml,application/json") =
      (py_split "application/xml,application/json" ',').findSome? (fun a =>
        (type_for_string ((py_split a ';').headD "")).bind
          (fun dt => if [DataType.json].contains dt then some dt else none))
    ∧ (get_negotiation [DataType.json] (some "application/xml,application/json") =
          Except.error 406 ↔
        ∀ a ∈ py_split "application/xml,application/json" ',', ∀ dt : DataType,
          type_for_string ((py_split a ';').headD "") = some dt →
            [DataType.json].contains dt = false)
    ∧ get_negotiation [DataType.json] none = Except.error 406 :=
  C7_theorem [DataType.json] "application/xml,application/json"

/-- Claim C4 (counterexample): the claim promises one catalog entry for every
live instance of the cataloged class, but `Catalog.serialization_of_type`
queries with `fetch(1000)`; with 1001 live instances the rebuilt catalog has
only 1000 entries. -/
theorem C4_counterexample :
    ((serialization_of_type { class_module := "m", catalog := none } big_instances
        DataType.json).1.getD []).length ≠ big_instances.length := by
  have h1 : big_instances.length = 1001 := by
    simp [big_instances]
  have h2 : ((serialization_of_type { class_module := "m", catalog := none }
      big_instances DataType.json).1.getD []) = catalog_array big_instances := by
    simp only [serialization_of_type, Option.getD_some]
  rw [h2, h1, catalog_array, List.length_map, List.length_take,
    List.length_insertionSort, h1]
  decide

/-- Claim C4 (amended): on a cache miss, `Catalog.serialization_of_type`
returns the list of `{identifier, last-modified at second precision}` entries
for the live instances of the cataloged class — all of them whenever at most
1000 are live, the query being capped by `fetch(1000)` — ordered by descending
last-modified timestamp, stores that serialization in the catalog entity
(which the catalog store keys by class name), and a later read returns the
stored serialization unchanged (even against a changed live set) until
invalidation. -/
theorem C4_theorem (mname : String) (live alt : List Entity)
    (hlen : live.length ≤ 1000) :
    (serialization_of_type { class_module := mname, catalog := none } live
        DataType.json).1 = some (catalog_array live)
    ∧ (serialization_of_type { class_module := mname, catalog := none } live
        DataType.json).2 =
      { class_module := mname, catalog := some (catalog_array live) }
    ∧ (catalog_array live).Perm (live.map catalog_entry)
    ∧ List.Pairwise (fun a b => b.2 ≤ a.2) (catalog_array live)
    ∧ serialization_of_type { class_module := mname, catalog := some (catalog_array live) }
        alt DataType.json =
      (some (catalog_array live),
        { class_module := mname, catalog := some (catalog_array live) }) := by
  have hsortlen : (List.insertionSort lm_desc live).length ≤ 1000 := by
    rw [List.length_insertionSort]
    exact hlen
  have htake : (List.insertionSort lm_desc live).take 1000 =
      List.insertionSort lm_desc live :=
    List.take_of_length_le hsortlen
  refine ⟨rfl, rfl, ?_, ?_, rfl⟩
  · rw [catalog_array, htake]
    exact List.Perm.map catalog_entry (List.perm_insertionSort lm_desc live)
  · rw [catalog_array]
    rw [List.pairwise_map]
    have hs : List.Pairwise lm_desc ((List.insertionSort lm_desc live).take 1000) :=
      List.Pairwise.sublist (List.take_sublist 1000 _)
        (List.sorted_insertionSort lm_desc live)
    exact hs.imp (fun hab => Nat.div_le_div_right hab)

/-- Claim C4 (witness): the amended theorem evaluated at the two-instance live
set `demo_live` and the unrelated live set `demo_alt`. -/
theorem C4_witness :
    (serialization_of_type { class_module := "m", catalog := none } demo_live
        DataType.json).1 = some (catalog_array demo_live)
    ∧ (serialization_of_type { class_module := "m", catalog := none } demo_live
        DataType.json).2 =
      { class_module := "m", catalog := some (catalog_array demo_live) }
    ∧ (catalog_array demo_live).Perm (demo_live.map catalog_entry)
    ∧ List.Pairwise (fun a b => b.2 ≤ a.2) (catalog_array demo_live)
    ∧ serialization_of_type { class_module := "m", catalog := some (catalog_array demo_live) }
        demo_alt DataType.json =
      (some (catalog_array demo_live),
        { class_module := "m", catalog := some (catalog_array demo_live) }) :=
  C4_theorem "m" demo_live demo_alt (by decide)

theorem mget_mdel_self {V : Type} (k : String) (m : List (String × V)) :
    mget k (mdel k m) = none := by
  induction m with
  | nil => rfl
  | cons p ps ih =>
    by_cases h : p.1 = k
    · rw [mdel, if_pos h]
      exact ih
    · rw [mdel, if_neg h, mget, if_neg h]
      exact ih

theorem mget_mdel_ne {V : Type} (k k2 : String) (m : List (String × V))
    (h : k ≠ k2) : mget k (mdel k2 m) = mget k m := by
  induction m with
  | nil => rfl
  | cons p ps ih =>
    by_cases hp : p.1 = k2
    · have hpk : ¬ p.1 = k := by
        rw [hp]
        exact fun he => h he.symm
      rw [mdel, if_pos hp, ih, mget, if_neg hpk]
    · rw [mdel, if_neg hp, mget, mget]
      by_cases hpk : p.1 = k
      · rw [if_pos hpk, if_pos hpk]
      · rw [if_neg hpk, if_neg hpk]
        exact ih

theorem mget_mset_self {V : Type} (k : String) (v : V) (m : List (String × V)) :
    mget k (mset k v m) = some v := by
  simp [mset, mget]

theorem mget_mset_ne {V : Type} (k k2 : String) (v : V) (m : List (String × V))
    (h : k ≠ k2) : mget k (mset k2 v m) = mget k m := by
  have h2 : ¬ (k2 = k) := fun he => h he.symm
  simp [mset, mget, h2]
  exact mget_mdel_ne k k2 m h

theorem has_key_mset {V : Type} (k k2 : String) (v : V) (m : List (String × V)) :
    has_key k (mset k2 v m) = true ↔ (k = k2 ∨ has_key k m = true) := by
  by_cases h : k = k2
  · subst h
    simp [has_key, mget_mset_self]
  · rw [has_key, mget_mset_ne k k2 v m h]
    simp [has_key, h]

theorem has_key_mdel {V : Type} (k k2 : String) (m : List (String × V)) :
    has_key k (mdel k2 m) = true ↔ (has_key k m = true ∧ k ≠ k2) := by
  by_cases h : k = k2
  · subst h
    simp [has_key, mget_mdel_self]
  · rw [has_key, mget_mdel_ne k k2 m h]
    simp [has_key, h]

theorem step_old {V D : Type} (create : String → V) (upd : V → D → V × Bool)
    (st : ImportState V) (key : String) (d : D) (k : String) :
    has_key k (end_element_step create upd st (some key) d).old_objects = true ↔
      (has_key k st.old_objects = true ∧ k ≠ key) := by
  cases hpop : mget key st.old_objects with
  | some obj =>
    cases hch : (upd obj d).2 <;>
      simp [end_element_step, pop_from_old_objects, hpop, hch, has_key_mdel]
  | none =>
    cases hnew : mget key st.new_objects with
    | some v =>
      cases hch : (upd v d).2 <;> by_cases he : k = key
      · subst he
        simp [end_element_step, pop_from_old_objects, hpop, hnew, hch, has_key]
      · simp [end_element_step, pop_from_old_objects, hpop, hnew, hch, he]
      · subst he
        simp [end_element_step, pop_from_old_objects, hpop, hnew, hch, has_key]
      · simp [end_element_step, pop_from_old_objects, hpop, hnew, hch, he]
    | none =>
      cases hch : (upd (create key) d).2 <;> by_cases he : k = key
      · subst he
        simp [end_element_step, pop_from_old_objects, hpop, hnew, hch, has_key]
      · simp [end_element_step, pop_from_old_objects, hpop, hnew, hch, he]
      · subst he
        simp [end_element_step, pop_from_old_objects, hpop, hnew, hch, has_key]
      · simp [end_element_step, pop_from_old_objects, hpop, hnew, hch, he]

theorem step_new {V D : Type} (create : String → V) (upd : V → D → V × Bool)
    (st : ImportState V) (key : String) (d : D) (k : String) :
    has_key k (end_element_step create upd st (some key) d).new_objects = true ↔
      (k = key ∨ has_key k st.new_objects = true) := by
  cases hpop : mget key st.old_objects with
  | some obj =>
    cases hch : (upd obj d).2 <;>
      simp [end_element_step, pop_from_old_objects, hpop, hch, has_key_mset]
  | none =>
    cases hnew : mget key st.new_objects with
    | some v =>
      cases hch : (upd v d).2 <;>
        simp [end_element_step, pop_from_old_objects, hpop, hnew, hch, has_key_mset]
    | none =>
      cases hch : (upd (create key) d).2 <;>
        simp [end_element_step, pop_from_old_objects, hpop, hnew, hch, has_key_mset]

theorem step_upd {V D : Type} (create : String → V) (upd : V → D → V × Bool)
    (st : ImportState V) (key : String) (d : D) (k : String) :
    has_key k (end_element_step create upd st (some key) d).updated_objects = true →
      (k = key ∨ has_key k st.updated_objects = true) := by
  cases hpop : mget key st.old_objects with
  | some obj =>
    cases hch : (upd obj d).2 <;>
      simp [end_element_step, pop_from_old_objects, hpop, hch, has_key_mset] <;>
      tauto
  | none =>
    cases hnew : mget key st.new_objects with
    | some v =>
      cases hch : (upd v d).2 <;>
        simp [end_element_step, pop_from_old_objects, hpop, hnew, hch, has_key_mset] <;>
        tauto
    | none =>
      cases hch : (upd (create key) d).2 <;>
        simp [end_element_step, pop_from_old_objects, hpop, hnew, hch, has_key_mset] <;>
        tauto

theorem import_old_spec {V D : Type} (create : String → V) (upd : V → D → V × Bool)
    (records : List (Option String × D)) :
    ∀ (st : ImportState V) (k : String),
      has_key k (records.foldl (fun s r => end_element_step create upd s r.1 r.2)
          st).old_objects = true ↔
        (has_key k st.old_objects = true ∧ k ∉ feed_keys records) := by
  induction records with
  | nil => simp [feed_keys]
  | cons r records ih =>
    intro st k
    rcases r with ⟨key?, d⟩
    cases key? with
    | none =>
      rw [List.foldl_cons]
      rw [show end_element_step create upd st none d = st from rfl]
      rw [ih st k]
      simp [feed_keys]
    | some key =>
      rw [List.foldl_cons, ih _ k, step_old]
      have : feed_keys ((some key, d) :: records) = key :: feed_keys records := rfl
      rw [this]
      simp only [List.mem_cons]
      tauto

theorem import_new_spec {V D : Type} (create : String → V) (upd : V → D → V × Bool)
    (records : List (Option String × D)) :
    ∀ (st : ImportState V) (k : String),
      has_key k (records.foldl (fun s r => end_element_step create upd s r.1 r.2)
          st).new_objects = true ↔
        (has_key k st.new_objects = true ∨ k ∈ feed_keys records) := by
  induction records with
  | nil => simp [feed_keys]
  | cons r records ih =>
    intro st k
    rcases r with ⟨key?, d⟩
    cases key? with
    | none =>
      rw [List.foldl_cons]
      rw [show end_element_step create upd st none d = st from rfl]
      rw [ih st k]
      simp [feed_keys]
    | some key =>
      rw [List.foldl_cons, ih _ k, step_new]
      have : feed_keys ((some key, d) :: records) = key :: feed_keys records := rfl
      rw [this]
      simp only [List.mem_cons]
      tauto

theorem import_upd_spec {V D : Type} (create : String → V) (upd : V → D → V × Bool)
    (records : List (Option String × D)) :
    ∀ (st : ImportState V) (k : String),
      has_key k (records.foldl (fun s r => end_element_step create upd s r.1 r.2)
          st).updated_objects = true →
        (has_key k st.updated_objects = true ∨ k ∈ feed_keys records) := by
  induction records with
  | nil => simp [feed_keys]
  | cons r records ih =>
    intro st k h
    rcases r with ⟨key?, d⟩
    cases key? with
    | none =>
      rw [List.foldl_cons] at h
      rw [show end_element_step create upd st none d = st from rfl] at h
      have := ih st k h
      simpa [feed_keys] using this
    | some key =>
      rw [List.foldl_cons] at h
      have h2 := ih _ k h
      have hfk : feed_keys ((some key, d) :: records) = key :: feed_keys records := rfl
      rw [hfk]
      simp only [List.mem_cons]
      rcases h2 with h2 | h2
      · rcases step_upd create upd st key d k h2 with h3 | h3
        · tauto
        · tauto
      · tauto

/-- Claim C5: after a complete reconciliation pass, every key is in exactly one
of `new_objects` (the result) and `old_objects` (the remaining deletion
candidates); the result keys are exactly (pre-import keys minus remaining keys)
together with the keys inserted from the feed; and the keys of
`updated_objects` are a subset of the result keys. -/
theorem C5_theorem {V D : Type} (create : String → V) (upd : V → D → V × Bool)
    (existing : List (String × V)) (records : List (Option String × D))
    (k : String) :
    ¬(has_key k (run_import create upd existing records).new_objects = true ∧
        has_key k (run_import create upd existing records).old_objects = true)
    ∧ (has_key k (run_import create upd existing records).new_objects = true ↔
        ((has_key k existing = true ∧
          has_key k (run_import create upd existing records).old_objects = false) ∨
         k ∈ feed_keys records))
    ∧ (has_key k (run_import create upd existing records).updated_objects = true →
        has_key k (run_import create upd existing records).new_objects = true) := by
  have hold := import_old_spec create upd records (start_document existing) k
  have hnew := import_new_spec create upd records (start_document existing) k
  have hupd := import_upd_spec create upd records (start_document existing) k
  rw [show (start_document existing : ImportState V).old_objects = existing from rfl]
    at hold
  rw [show (start_document existing : ImportState V).new_objects = [] from rfl] at hnew
  rw [show (start_document existing : ImportState V).updated_objects = [] from rfl]
    at hupd
  rw [show has_key k ([] : List (String × V)) = false from rfl] at hnew hupd
  unfold run_import
  refine ⟨?_, ?_, ?_⟩
  · rw [hold, hnew]
    tauto
  · have hold2 : has_key k (records.foldl
        (fun st r => end_element_step create upd st r.1 r.2)
        (start_document existing)).old_objects = false ↔
        ¬(has_key k existing = true ∧ k ∉ feed_keys records) := by
      rw [Bool.eq_false_iff]
      exact not_congr hold
    rw [hnew, hold2]
    by_cases hf : k ∈ feed_keys records <;>
      by_cases hex : has_key k existing = true <;>
      simp [hf, hex]
  · intro h
    rcases hupd h with h2 | h2
    · cases h2
    · exact hnew.mpr (Or.inr h2)

/-- Claim C5 (witness): the theorem evaluated at the demo importer, the
existing population {A, C}, a feed with keys {A, B} plus one ignorable record,
and the key "A". -/
theorem C5_witness :
    ¬(has_key "A" (run_import demo_create demo_upd [("A", 1), ("C", 2)]
        [(some "A", 5), (some "B", 0), (none, 9)]).new_objects = true ∧
      has_key "A" (run_import demo_create demo_upd [("A", 1), ("C", 2)]
        [(some "A", 5), (some "B", 0), (none, 9)]).old_objects = true)
    ∧ (has_key "A" (run_import demo_create demo_upd [("A", 1), ("C", 2)]
        [(some "A", 5), (some "B", 0), (none, 9)]).new_objects = true ↔
        ((has_key "A" [("A", 1), ("C", 2)] = true ∧
          has_key "A" (run_import demo_create demo_upd [("A", 1), ("C", 2)]
            [(some "A", 5), (some "B", 0), (none, 9)]).old_objects = false) ∨
         "A" ∈ feed_keys [(some "A", 5), (some "B", 0), (none, 9)]))
    ∧ (has_key "A" (run_import demo_create demo_upd [("A", 1), ("C", 2)]
        [(some "A", 5), (some "B", 0), (none, 9)]).updated_objects = true →
        has_key "A" (run_import demo_create demo_upd [("A", 1), ("C", 2)]
          [(some "A", 5), (some "B", 0), (none, 9)]).new_objects = true) :=
  C5_theorem demo_create demo_upd [("A", 1), ("C", 2)]
    [(some "A", 5), (some "B", 0), (none, 9)] "A"

/-- Claim C9: when a closing tag yields a key absent from `old_objects` but
already present in `new_objects` (a duplicate record in the feed),
`pop_from_old_objects` returns the object already inserted under that key:
the step updates that object in place, creates no fresh blank object, and
leaves `old_objects` untouched, so duplicate feed entries are silently merged
onto a single object. -/
theorem C9_theorem {V D : Type} (create : String → V) (upd : V → D → V × Bool)
    (st : ImportState V) (key : String) (d : D) (v : V)
    (hold : mget key st.old_objects = none)
    (hnew : mget key st.new_objects = some v) :
    end_element_step create upd st (some key) d =
      { old_objects := st.old_objects,
        updated_objects :=
          if (upd v d).2 then mset key (upd v d).1 st.updated_objects
          else st.updated_objects,
        new_objects := mset key (upd v d).1 st.new_objects } := by
  cases hch : (upd v d).2 <;>
    simp [end_element_step, pop_from_old_objects, hold, hnew, hch]

/-- Claim C9 (witness): the theorem evaluated at a state whose `old_objects`
snapshot holds only "C" while "A" is already in `new_objects` with value 7,
and a duplicate record for "A" carrying data 3. -/
theorem C9_witness :
    end_element_step demo_create demo_upd
        { old_objects := [("C", 2)], updated_objects := [],
          new_objects := [("A", 7)] } (some "A") 3 =
      { old_objects := [("C", 2)],
        updated_objects :=
          if (demo_upd 7 3).2 then mset "A" (demo_upd 7 3).1 []
          else [],
        new_objects := mset "A" (demo_upd 7 3).1 [("A", 7)] } :=
  C9_theorem demo_create demo_upd
    { old_objects := [("C", 2)], updated_objects := [], new_objects := [("A", 7)] }
    "A" 3 7 rfl rfl

theorem stored_catalog_invalidate (cls : String) (w : PubWorld) :
    stored_catalog cls (invalidate_catalog cls w) = some none := by
  unfold invalidate_catalog catalog_get stored_catalog
  cases hm : mget cls w.catalogs with
  | none => simp [mget_mset_self, invalidate]
  | some ent =>
    cases hc : ent.catalog with
    | none => simp [mget_mset_self, invalidate, hc]
    | some s => simp [mget_mset_self, invalidate, hc]

theorem consistent_of_cleared (cls : String) (w : PubWorld)
    (h : stored_catalog cls w = some none) : catalog_consistent cls w := by
  unfold catalog_consistent
  unfold stored_catalog at h
  cases hm : mget cls w.catalogs with
  | none => trivial
  | some ent =>
    rw [hm] at h
    simp at h
    simp [h]

theorem consistent_read (cls : String) (w : PubWorld)
    (h : catalog_consistent cls w) :
    catalog_consistent cls (catalog_read cls w).2 := by
  unfold catalog_read catalog_get
  cases hm : mget cls w.catalogs with
  | none =>
    simp only [catalog_consistent, serialization_of_type, mget_mset_self]
  | some ent =>
    cases hc : ent.catalog with
    | none =>
      simp only [catalog_consistent, serialization_of_type, hc, mget_mset_self]
    | some s =>
      unfold catalog_consistent at h
      simp only [hm] at h
      simp only [hc] at h
      simp only [catalog_consistent, serialization_of_type, hc, mget_mset_self]
      exact h

theorem consistent_apply (cls : String) (w : PubWorld) (op : PubOp)
    (h : catalog_consistent cls w) :
    catalog_consistent cls (apply_op cls w op) := by
  cases op with
  | newOp =>
    exact consistent_of_cleared cls _ (stored_catalog_invalidate cls w)
  | putOp id now =>
    exact consistent_of_cleared cls _ (stored_catalog_invalidate cls _)
  | delOp id =>
    exact consistent_of_cleared cls _ (stored_catalog_invalidate cls _)
  | readOp =>
    exact consistent_read cls w h

theorem consistent_run (cls : String) (ops : List PubOp) :
    ∀ w : PubWorld, catalog_consistent cls w →
      catalog_consistent cls (ops.foldl (apply_op cls) w) := by
  induction ops with
  | nil => exact fun w h => h
  | cons op ops ih =>
    intro w h
    rw [List.foldl_cons]
    exact ih _ (consistent_apply cls w op h)

/-- Claim C8: every mutation of a publication class — `new()`, `put()` and
`delete()` — leaves the class's catalog entity present with a cleared cache
(the invalidation happens synchronously inside the same mutation), and over
any operation sequence from the empty datastore the stored catalog is always
either absent, explicitly cleared, or exactly the serialization of the current
live set — never partially stale. -/
theorem C8_theorem (cls : String) (w : PubWorld) (id : String) (now : Nat)
    (ops : List PubOp) :
    stored_catalog cls (public_new cls w) = some none
    ∧ stored_catalog cls (public_put cls id now w) = some none
    ∧ stored_catalog cls (public_delete cls id w) = some none
    ∧ catalog_consistent cls (run_ops cls ops) := by
  refine ⟨stored_catalog_invalidate cls w, stored_catalog_invalidate cls _,
    stored_catalog_invalidate cls _, ?_⟩
  unfold run_ops
  exact consistent_run cls ops init_world trivial

/-- Claim C8 (witness): the theorem evaluated at class name "PR", the empty
world, instance id "x" stored at time 3, and a put/read/delete/read
sequence. -/
theorem C8_witness :
    stored_catalog "PR" (public_new "PR" init_world) = some none
    ∧ stored_catalog "PR" (public_put "PR" "x" 3 init_world) = some none
    ∧ stored_catalog "PR" (public_delete "PR" "x" init_world) = some none
    ∧ catalog_consistent "PR" (run_ops "PR"
        [PubOp.putOp "x" 3, PubOp.readOp, PubOp.delOp "x", PubOp.readOp]) :=
  C8_theorem "PR" init_world "x" 3
    [PubOp.putOp "x" 3, PubOp.readOp, PubOp.delOp "x", PubOp.readOp]

end FFE
